import Mathlib

/-!
Shallow embedding of the portfolio-tracker backend core (Go) in Lean 4:
cursor-based transaction sync, connection health monitors, snapshot and
monthly rollup engine, categorization resolver, batch orchestrator and
webhook endpoint.  Definitions are translated from the Go sources under
backend/internal (server/transactions.go, server/portfolio.go,
snaptrade/client.go status checkers, database/supabase.go, plaid client).
Machine strings are Lean String (only equality and substring search
matter); int64 is Int; float64 dollar amounts are abstracted at the
boundary as their already-rounded cent values (int64(math.Round(x*100)));
time.Time dates appearing only as opaque payload are kept as strings,
while the calendar arithmetic used by the month-end check is modelled by
an explicit Date record.  Fallible calls return Option or carry explicit
failure flags; a Go panic is modelled as Option.none.
-/

namespace PortfolioTracker

/-- Lowercases a character list, modelling strings.ToLower. -/
def lower (s : List Char) : List Char := s.map Char.toLower

/-- Tests whether needle is a prefix of hay, helper for substring search. -/
def hasPrefixL : List Char → List Char → Bool
  | [], _ => true
  | _ :: _, [] => false
  | a :: as, b :: bs => a == b && hasPrefixL as bs

/-- Tests whether needle occurs as a contiguous substring of hay,
modelling strings.Contains(hay, needle). -/
def strContainsL : List Char → List Char → Bool
  | [], needle => needle.isEmpty
  | c :: t, needle => hasPrefixL needle (c :: t) || strContainsL t needle

/-- Category row (database.Category): id, name, optional Plaid primary
category alias, expense flag. -/
structure Category where
  id : Int
  name : String
  plaidName : Option String
  expense : Bool
deriving Repr, DecidableEq

/-- Category rule row (database.CategoryRule): ordered id, substring to
match, target category id. -/
structure CategoryRule where
  id : Int
  matchString : List Char
  categoryID : Int
deriving Repr, DecidableEq

/-- Plaid transaction as returned by the provider
(plaid.PlaidTransaction).  amountCents stands for
int64(math.Round(p.Amount*100)) computed at the float boundary. -/
structure PlaidTransaction where
  accountID : String
  transactionID : String
  date : String
  amountCents : Int
  name : List Char
  merchantName : Option (List Char)
  category : List String
  pending : Bool
deriving Repr, DecidableEq

/-- Local transaction row (database.Transaction).  createdAt/updatedAt
(time.Now) are dropped as claim-irrelevant wall-clock noise. -/
structure Transaction where
  plaidAccountID : String
  plaidTransactionID : String
  date : String
  amountCents : Int
  name : List Char
  merchantName : Option (List Char)
  categoryID : Option Int
  pending : Bool
deriving Repr, DecidableEq

/-- Association-list lookup used to model a Go map read: the first
binding wins, and inserts cons at the front, so reads see the most
recent write. -/
def mapLookup (m : List (String × Int)) (k : String) : Option Int :=
  match m with
  | [] => none
  | (k1, v) :: rest => if k1 = k then some v else mapLookup rest k

/-- Builds the plaidNameToCategoryID map and uncategorizedID exactly as
the loop at the top of SyncTransactionsForItem does: categories with a
non-nil PlaidName are inserted into the map; otherwise a category named
Uncategorized sets uncategorizedID (zero-valued when absent, like the Go
int64 zero value). -/
def buildPlaidNameMap : List Category → List (String × Int) × Int
  | [] => ([], 0)
  | c :: rest =>
    let (m, u) := buildPlaidNameMap rest
    match c.plaidName with
    | some pn => ((pn, c.id) :: m, u)
    | none => if c.name = "Uncategorized" then (m, c.id) else (m, u)

/-- The lowercased merchant text of a transaction: empty when
MerchantName is nil, its lowercasing otherwise. -/
def merchantText (p : PlaidTransaction) : List Char :=
  match p.merchantName with
  | some mn => lower mn
  | none => []

/-- The per-rule match condition of the rule loop: the lowercased match
substring occurs in the lowercased name, or the merchant text is
nonempty and contains it. -/
def ruleMatches (r : CategoryRule) (name merchant : List Char) : Bool :=
  strContainsL name (lower r.matchString) ||
    (!merchant.isEmpty && strContainsL merchant (lower r.matchString))

/-- Scans the rules in list order and returns the category of the first
rule satisfying the match condition — the rule loop of
plaidTransactionToDB. -/
def resolveByRules (rules : List CategoryRule) (name merchant : List Char) :
    Option Int :=
  match rules with
  | [] => none
  | r :: rest =>
    if ruleMatches r name merchant then some r.categoryID
    else resolveByRules rest name merchant

/-- Converts a Plaid transaction to the local row, resolving the category
as in plaidTransactionToDB: rules first; otherwise, when the provider
category list is nonempty, its head is looked up in the alias map with
fallback to uncategorizedID; when the provider category list is empty the
category reference stays nil. -/
def plaidTransactionToDB (p : PlaidTransaction)
    (plaidNameToCategoryID : List (String × Int)) (uncategorizedID : Int)
    (rules : List CategoryRule) : Transaction :=
  let categoryID : Option Int :=
    match resolveByRules rules (lower p.name) (merchantText p) with
    | some cid => some cid
    | none =>
      match p.category with
      | [] => none
      | primary :: _ =>
        match mapLookup plaidNameToCategoryID primary with
        | some cid => some cid
        | none => some uncategorizedID
  { plaidAccountID := p.accountID
    plaidTransactionID := p.transactionID
    date := p.date
    amountCents := p.amountCents
    name := p.name
    merchantName := p.merchantName
    categoryID := categoryID
    pending := p.pending }

/-- Plaid item row (database.PlaidItem): the fields the sync controller
reads. -/
structure PlaidItem where
  itemID : String
  accessToken : String
  transactionsCursor : Option String
  newTransactionsPending : Bool
  status : String
deriving Repr, DecidableEq

/-- The relational store state touched by one item sync: the transaction
table keyed by plaid_transaction_id, the static category and rule
tables, the item cursor and pending columns, and a log of the
cursor-and-pending PATCH calls (each log entry is one atomic update of
both columns together, as UpdatePlaidItemCursorAndPending issues). -/
structure Store where
  transactions : List (String × Transaction)
  categories : List Category
  rules : List CategoryRule
  itemCursor : Option String
  itemPending : Bool
  cursorPendingLog : List (String × Bool)
deriving Repr, DecidableEq

/-- Keyed upsert of one transaction row: overwrite the binding when the
key exists, insert otherwise (Supabase upsert on plaid_transaction_id). -/
def upsertOne (rows : List (String × Transaction)) (t : Transaction) :
    List (String × Transaction) :=
  match rows with
  | [] => [(t.plaidTransactionID, t)]
  | (k, old) :: rest =>
    if k = t.plaidTransactionID then (k, t) :: rest
    else (k, old) :: upsertOne rest t

/-- Applies UpsertTransactions on a batch, row by row. -/
def upsertTransactions (rows : List (String × Transaction))
    (batch : List Transaction) : List (String × Transaction) :=
  batch.foldl upsertOne rows

/-- Applies DeleteTransactionsByPlaidIDs: keyed delete of every listed
plaid transaction id. -/
def deleteTransactionsByPlaidIDs (rows : List (String × Transaction))
    (ids : List String) : List (String × Transaction) :=
  rows.filter (fun kv => !ids.contains kv.1)

/-- UpdatePlaidItemCursorAndPending: one PATCH that sets
transactions_cursor and new_transactions_pending together. -/
def updatePlaidItemCursorAndPending (s : Store) (cursor : String)
    (pending : Bool) : Store :=
  { s with itemCursor := some cursor
           itemPending := pending
           cursorPendingLog := s.cursorPendingLog ++ [(cursor, pending)] }

/-- One page returned by the provider sync primitive
(plaid.TransactionsSyncResult). -/
structure SyncPage where
  added : List PlaidTransaction
  modified : List PlaidTransaction
  removed : List String
  nextCursor : String
  hasMore : Bool
deriving Repr, DecidableEq

/-- Environment script entry for one loop iteration: either the page
fetch itself fails, or it yields a page together with flags saying
whether the upsert call and the delete call of that iteration fail at
the store. -/
inductive PageOutcome where
  | fetchErr : PageOutcome
  | page : SyncPage → Bool → Bool → PageOutcome
deriving Repr, DecidableEq

/-- Runs the page loop of SyncTransactionsForItem over the environment
script: per iteration, convert added then modified through the resolver,
upsert when the batch is nonempty, delete when the removed list is
nonempty, advance the local cursor variable, and continue while hasMore.
Returns the store as mutated so far, plus the final local cursor on
success and none when any fetch, upsert or delete failed (the Go early
returns).  An exhausted script while hasMore holds is a fetch failure. -/
def runSyncPages (plaidNameToCategoryID : List (String × Int))
    (uncategorizedID : Int) (rules : List CategoryRule) :
    List PageOutcome → String → Store → Store × Option String
  | [], _, s => (s, none)
  | PageOutcome.fetchErr :: _, _, s => (s, none)
  | PageOutcome.page p upsertFails deleteFails :: rest, _, s =>
    let toUpsert := (p.added ++ p.modified).map
      (fun t => plaidTransactionToDB t plaidNameToCategoryID uncategorizedID rules)
    if !toUpsert.isEmpty && upsertFails then (s, none)
    else
      let s1 := { s with transactions := upsertTransactions s.transactions toUpsert }
      if !p.removed.isEmpty && deleteFails then (s1, none)
      else
        let s2 := { s1 with transactions :=
          deleteTransactionsByPlaidIDs s1.transactions p.removed }
        if p.hasMore then
          runSyncPages plaidNameToCategoryID uncategorizedID rules rest p.nextCursor s2
        else (s2, some p.nextCursor)

/-- The starting cursor of a sync run: the stored cursor, or the empty
string when the item has never synced (nil cursor). -/
def cursorOrEmpty : Option String → String
  | some c => c
  | none => ""

/-- The page loop of one item sync as run by SyncTransactionsForItem:
the alias map and uncategorized id come from the category table read at
the start of the run, the rules from the rule table, and the starting
cursor from the item row. -/
def syncRun (script : List PageOutcome) (item : PlaidItem) (s : Store) :
    Store × Option String :=
  runSyncPages (buildPlaidNameMap s.categories).1
    (buildPlaidNameMap s.categories).2 s.rules script
    (cursorOrEmpty item.transactionsCursor) s

/-- SyncTransactionsForItem: read the cursor (empty when nil), load
categories and rules (their read failures, and a failure of the final
cursor PATCH, are injected through the three flags), build the alias
map, run the page loop, and on success persist the final cursor and
clear the pending flag in the single atomic update.  Returns the store
after the run and whether the run errored. -/
def SyncTransactionsForItem (script : List PageOutcome) (item : PlaidItem)
    (listCategoriesFails listRulesFails finalUpdateFails : Bool)
    (s : Store) : Store × Bool :=
  if listCategoriesFails then (s, true)
  else if listRulesFails then (s, true)
  else
    let r := syncRun script item s
    match r.2 with
    | none => (r.1, true)
    | some finalCursor =>
      if finalUpdateFails then (r.1, true)
      else (updatePlaidItemCursorAndPending r.1 finalCursor false, false)

/-- Error codes treated as authentication errors by the Plaid client
(isPlaidAuthError in the plaid package). -/
def authErrorCodes : List String :=
  ["ITEM_LOGIN_REQUIRED", "INVALID_ACCESS_TOKEN", "ACCESS_TOKEN_EXPIRED",
   "ACCESS_TOKEN_INVALID"]

/-- Determines if a Plaid error code indicates authentication or
reconnection is needed: membership in the fixed list, exactly
slices.Contains(authErrorCodes, errorCode). -/
def isPlaidAuthError (errorCode : String) : Bool :=
  authErrorCodes.contains errorCode

/-- PlaidConnectionError as the client builds it from an error response
body: the IsAuthError field is computed from the error code by
isPlaidAuthError (the HTTP-status fallback constructor sets it false). -/
structure PlaidConnectionError where
  errorCode : String
  isAuthError : Bool
deriving Repr, DecidableEq

/-- Constructs the PlaidConnectionError for a Plaid error body with the
given code, as postJSON does on a non-2xx response with a decoded error
message. -/
def mkPlaidConnectionError (errorCode : String) : PlaidConnectionError :=
  { errorCode := errorCode, isAuthError := isPlaidAuthError errorCode }

/-- Per-item status transition on a failed GetItem call, from the error
branch of checkAndUpdatePlaidItemStatuses: when the error is a
PlaidConnectionError whose IsAuthError flag is set, the status becomes
ITEM_LOGIN_REQUIRED; every other failure leaves the stored status
untouched (the loop continues without an upsert). -/
def plaidItemStatusAfterFailure (current : String)
    (e : PlaidConnectionError) : String :=
  if e.isAuthError then "ITEM_LOGIN_REQUIRED" else current

/-- One-step escalation switch used in both failure branches of
checkAndUpdateSnaptradeConnectionStatuses: OK goes to
ACCOUNT_FETCH_ERROR, ACCOUNT_FETCH_ERROR goes to CONNECTION_ERROR, and
any other stored status (CONNECTION_ERROR included) stays put. -/
def snaptradeEscalate (status : String) : String :=
  if status = "OK" then "ACCOUNT_FETCH_ERROR"
  else if status = "ACCOUNT_FETCH_ERROR" then "CONNECTION_ERROR"
  else status

/-- Outcome of the two sequential Snaptrade calls made by the brokerage
health check: the list-connections call fails, or it succeeds and the
list-accounts call fails, or both succeed. -/
inductive SnaptradeCheckOutcome where
  | listConnectionsFailed : SnaptradeCheckOutcome
  | listAccountsFailed : SnaptradeCheckOutcome
  | bothSucceeded : SnaptradeCheckOutcome
deriving Repr, DecidableEq

/-- Per-connection status transition of one brokerage health check run:
either failure escalates one step, and success of both calls resets the
status to OK unconditionally. -/
def snaptradeStatusStep (status : String) (o : SnaptradeCheckOutcome) : String :=
  match o with
  | SnaptradeCheckOutcome.listConnectionsFailed => snaptradeEscalate status
  | SnaptradeCheckOutcome.listAccountsFailed => snaptradeEscalate status
  | SnaptradeCheckOutcome.bothSucceeded => "OK"

/-- Applies one health check run to every stored connection (both Go
branches map the same switch over the connection list). -/
def runSnaptradeHealthCheck (conns : List (String × String))
    (o : SnaptradeCheckOutcome) : List (String × String) :=
  conns.map (fun kv => (kv.1, snaptradeStatusStep kv.2 o))

/-- Statuses observed after each of a sequence of health check runs
starting from the given status. -/
def snaptradeStatusTrace (status : String) :
    List SnaptradeCheckOutcome → List String
  | [] => []
  | o :: rest =>
    let s1 := snaptradeStatusStep status o
    s1 :: snaptradeStatusTrace s1 rest

/-- Steps the orchestrator trace records, in the order handleDailySync
performs them. -/
inductive SyncEvent where
  | plaidHealthCheck : SyncEvent
  | snaptradeHealthCheck : SyncEvent
  | plaidSync : SyncEvent
  | snapshotWrite : SyncEvent
deriving Repr, DecidableEq

/-- Inputs of one daily-sync invocation: the CRON_SECRET environment
value, the X-Cron-Secret header (absent header reads as the empty
string), a query-string credential the handler never reads, and flags
for whether the Plaid sync step and the snapshot step fail. -/
structure DailySyncEnv where
  cronSecret : String
  headerSecret : String
  querySecret : String
  plaidSyncFails : Bool
  snapshotFails : Bool
deriving Repr, DecidableEq

/-- Result of one daily-sync invocation: HTTP status and the ordered
trace of steps executed. -/
structure DailySyncResult where
  status : Nat
  trace : List SyncEvent
deriving Repr, DecidableEq

/-- handleDailySync control flow: reject with 401 unless the header
secret equals CRON_SECRET; then unconditionally run both connection
status checks (their errors are discarded); then run the Plaid safety
sync, returning 500 on failure; then write the Snaptrade snapshots,
returning 500 on failure; otherwise 200. -/
def handleDailySync (env : DailySyncEnv) : DailySyncResult :=
  if env.headerSecret ≠ env.cronSecret then { status := 401, trace := [] }
  else
    let checks := [SyncEvent.plaidHealthCheck, SyncEvent.snaptradeHealthCheck]
    if env.plaidSyncFails then
      { status := 500, trace := checks ++ [SyncEvent.plaidSync] }
    else if env.snapshotFails then
      { status := 500,
        trace := checks ++ [SyncEvent.plaidSync, SyncEvent.snapshotWrite] }
    else
      { status := 200,
        trace := checks ++ [SyncEvent.plaidSync, SyncEvent.snapshotWrite] }

/-- Decoded webhook request body: either the JSON decode fails, or it
yields a payload whose absent fields decode to the empty string (Go
zero values). -/
inductive WebhookBody where
  | malformed : WebhookBody
  | payload : String → String → String → WebhookBody
deriving Repr, DecidableEq

/-- Server-side circumstances of one webhook request: whether the
database dependency is configured and whether the pending-flag PATCH
fails. -/
structure WebhookDeps where
  dbConfigured : Bool
  writeFails : Bool
deriving Repr, DecidableEq

/-- Result of one webhook request: HTTP status, and the item whose
new_transactions_pending flag was set to true (none when no state
changed). -/
structure WebhookResult where
  status : Nat
  pendingSetFor : Option String
deriving Repr, DecidableEq

/-- HandlePlaidWebhook control flow: 405 for a non-POST; 400 when the
body fails to decode; 200 with no action for any webhook code other
than SYNC_UPDATES_AVAILABLE; 400 when item_id is missing; 500 when the
database is not configured or the pending-flag write fails; otherwise
the flag is set and 200 returned. -/
def HandlePlaidWebhook (method : String) (body : WebhookBody)
    (deps : WebhookDeps) : WebhookResult :=
  if method ≠ "POST" then { status := 405, pendingSetFor := none }
  else
    match body with
    | WebhookBody.malformed => { status := 400, pendingSetFor := none }
    | WebhookBody.payload _ webhookCode itemID =>
      if webhookCode ≠ "SYNC_UPDATES_AVAILABLE" then
        { status := 200, pendingSetFor := none }
      else if itemID = "" then { status := 400, pendingSetFor := none }
      else if !deps.dbConfigured then { status := 500, pendingSetFor := none }
      else if deps.writeFails then { status := 500, pendingSetFor := none }
      else { status := 200, pendingSetFor := some itemID }

/-- Calendar date with a one-based month, for the month-end arithmetic
of the snapshot engine (time.Time in UTC truncated to a day). -/
structure Date where
  year : Int
  month : Nat
  day : Nat
deriving Repr, DecidableEq

/-- Gregorian leap-year test. -/
def isLeapYear (y : Int) : Bool :=
  y % 4 = 0 && (y % 100 ≠ 0 || y % 400 = 0)

/-- Number of days in the given month of the given year. -/
def daysInMonth (y : Int) (m : Nat) : Nat :=
  if m = 2 then (if isLeapYear y then 29 else 28)
  else if m = 4 || m = 6 || m = 9 || m = 11 then 30
  else 31

/-- The next calendar day, modelling today.AddDate(0, 0, 1) with its
date normalization. -/
def nextDay (d : Date) : Date :=
  if d.day < daysInMonth d.year d.month then
    { d with day := d.day + 1 }
  else if d.month < 12 then { year := d.year, month := d.month + 1, day := 1 }
  else { year := d.year + 1, month := 1, day := 1 }

/-- Brokerage position as the Snaptrade client returns it
(valueCents is int64 in the source; the float64 quantity is abstracted
to its exact integral value, unused by any claim). -/
structure Position where
  symbol : String
  quantity : Int
  valueCents : Int
deriving Repr, DecidableEq

/-- Brokerage account with balance: balanceCents stands for
int64(math.Round(account.BalanceAmount*100)) computed at the float
boundary; positions is none when the per-account ListAccountPositions
call fails (the Go loop then continues to the next account). -/
structure SnapAccount where
  id : String
  balanceCents : Int
  positions : Option (List Position)
deriving Repr, DecidableEq

/-- Daily holding row (database.DailyHolding), keyed by
(date, account, symbol). -/
structure DailyHolding where
  date : Date
  accountID : String
  symbol : String
  quantity : Int
  valueCents : Int
deriving Repr, DecidableEq

/-- Monthly snapshot row (database.MonthlySnapshot), keyed by
(month start, account). -/
structure MonthlySnapshot where
  month : Date
  accountID : String
  portfolioValueCents : Int
deriving Repr, DecidableEq

/-- Snapshot-side store state: daily holdings keyed by
(date, account, symbol), daily snapshots keyed by date, monthly
snapshots keyed by (month, account). -/
structure SnapStore where
  dailyHoldings : List DailyHolding
  dailySnapshots : List (Date × Int)
  monthlySnapshots : List MonthlySnapshot
deriving Repr, DecidableEq

/-- Keyed upsert of one daily holding on (date, account, symbol). -/
def upsertDailyHolding (rows : List DailyHolding) (h : DailyHolding) :
    List DailyHolding :=
  match rows with
  | [] => [h]
  | r :: rest =>
    if r.date = h.date && r.accountID = h.accountID && r.symbol = h.symbol then
      h :: rest
    else r :: upsertDailyHolding rest h

/-- Keyed upsert of the daily snapshot on its date. -/
def upsertDailySnapshot (rows : List (Date × Int)) (d : Date) (v : Int) :
    List (Date × Int) :=
  match rows with
  | [] => [(d, v)]
  | (d1, v1) :: rest =>
    if d1 = d then (d, v) :: rest else (d1, v1) :: upsertDailySnapshot rest d v

/-- Keyed upsert of one monthly snapshot on (month, account). -/
def upsertMonthlySnapshot (rows : List MonthlySnapshot) (m : MonthlySnapshot) :
    List MonthlySnapshot :=
  match rows with
  | [] => [m]
  | r :: rest =>
    if r.month = m.month && r.accountID = m.accountID then m :: rest
    else r :: upsertMonthlySnapshot rest m

/-- Last-write-wins association list for the Go map accountTotals
(accountTotals[account.ID] = accountTotalCents): insertion replaces an
existing binding. -/
def insertTotal (m : List (String × Int)) (k : String) (v : Int) :
    List (String × Int) :=
  match m with
  | [] => [(k, v)]
  | (k1, v1) :: rest =>
    if k1 = k then (k, v) :: rest else (k1, v1) :: insertTotal rest k v

/-- The account loop of writeSnaptradeSnapshotsForToday: accumulate the
total portfolio value and the per-account totals from the balances, and
upsert one daily holding per position of each account whose positions
fetch succeeds. -/
def snapshotAccountLoop (today : Date) :
    List SnapAccount → Int → List (String × Int) → List DailyHolding →
    Int × List (String × Int) × List DailyHolding
  | [], total, accountTotals, holdings => (total, accountTotals, holdings)
  | a :: rest, total, accountTotals, holdings =>
    let total1 := total + a.balanceCents
    let accountTotals1 := insertTotal accountTotals a.id a.balanceCents
    let holdings1 := match a.positions with
      | none => holdings
      | some ps => ps.foldl (fun hs p =>
          upsertDailyHolding hs
            { date := today, accountID := a.id, symbol := p.symbol,
              quantity := p.quantity, valueCents := p.valueCents }) holdings
    snapshotAccountLoop today rest total1 accountTotals1 holdings1

/-- The monthly snapshot row written for one accountTotals entry, dated
the first of the month being closed. -/
def monthlyRowOf (monthStart : Date) (kv : String × Int) : MonthlySnapshot :=
  { month := monthStart, accountID := kv.1, portfolioValueCents := kv.2 }

/-- maybeWriteMonthlySnapshots: when tomorrow is still in the same
month, write nothing; otherwise upsert one monthly snapshot per entry
of accountTotals, dated the first of the current month and valued at
that account total, and count the writes. -/
def maybeWriteMonthlySnapshots (today : Date)
    (accountTotals : List (String × Int)) (store : SnapStore) :
    SnapStore × Nat :=
  if (nextDay today).month = today.month then (store, 0)
  else
    let monthStart : Date := { year := today.year, month := today.month, day := 1 }
    let monthly := accountTotals.foldl (fun rows kv =>
      upsertMonthlySnapshot rows (monthlyRowOf monthStart kv))
      store.monthlySnapshots
    ({ store with monthlySnapshots := monthly }, accountTotals.length)

/-- writeSnaptradeSnapshotsForToday: with no accounts nothing is
written; otherwise run the account loop, upsert the daily total
snapshot for today, and call the monthly writer.  Returns the store,
whether the daily snapshot was written, and how many monthly rows were
written. -/
def writeSnaptradeSnapshotsForToday (accounts : List SnapAccount)
    (today : Date) (store : SnapStore) : SnapStore × Bool × Nat :=
  if accounts.isEmpty then (store, false, 0)
  else
    let r := snapshotAccountLoop today accounts 0 [] store.dailyHoldings
    let store1 := { store with
      dailyHoldings := r.2.2
      dailySnapshots := upsertDailySnapshot store.dailySnapshots today r.1 }
    let m := maybeWriteMonthlySnapshots today r.2.1 store1
    (m.1, true, m.2)

/-- Increment-by-key on the spending map, modelling
monthlySpending[categoryName] += amountCents. -/
def addSpending (m : List (String × Int)) (k : String) (v : Int) :
    List (String × Int) :=
  match m with
  | [] => [(k, v)]
  | (k1, v1) :: rest =>
    if k1 = k then (k1, v1 + v) :: rest else (k1, v1) :: addSpending rest k v

/-- The transaction loop of calculateMonthlySpentByCategory.  The Go
body dereferences transaction.CategoryID without a nil check and then
indexes the categories slice by the category id value; a nil category
reference or an out-of-range index panics, modelled as none. -/
def spentLoop (isExpense : Int → Bool) (categories : List Category) :
    List Transaction → List (String × Int) → Option (List (String × Int))
  | [], acc => some acc
  | t :: rest, acc =>
    match t.categoryID with
    | none => none
    | some cid =>
      if isExpense cid then
        if h : 0 ≤ cid ∧ cid.toNat < categories.length then
          let name := (categories.get ⟨cid.toNat, h.2⟩).name
          spentLoop isExpense categories rest (addSpending acc name t.amountCents)
        else none
      else spentLoop isExpense categories rest acc

/-- calculateMonthlySpentByCategory: empty month short-circuits to the
empty map; otherwise the expense-category id set is built from the
category table and the transaction loop runs (the store reads are
passed in as the fetched lists). -/
def calculateMonthlySpentByCategory (month : String)
    (transactions : List Transaction) (categories : List Category) :
    Option (List (String × Int)) :=
  if month = "" then some []
  else
    let isExpense := fun cid =>
      categories.any (fun c => c.id = cid && c.expense)
    spentLoop isExpense categories transactions []

/-- Concrete authorized run with both batch steps succeeding. -/
def allOkEnv : DailySyncEnv :=
  { cronSecret := "s", headerSecret := "s", querySecret := "",
    plaidSyncFails := false, snapshotFails := false }

/-- Concrete authorized run whose Plaid sync step fails. -/
def plaidFailEnv : DailySyncEnv :=
  { cronSecret := "s", headerSecret := "s", querySecret := "",
    plaidSyncFails := true, snapshotFails := false }

/-- Concrete run with an empty CRON_SECRET and an omitted header. -/
def openCronEnv : DailySyncEnv :=
  { cronSecret := "", headerSecret := "", querySecret := "ignored",
    plaidSyncFails := false, snapshotFails := false }

/-- Concrete webhook dependencies: database configured and the write
succeeding. -/
def okWebhookDeps : WebhookDeps := { dbConfigured := true, writeFails := false }

/-- Concrete category table holding only the Uncategorized row. -/
def c5Categories : List Category :=
  [{ id := 7, name := "Uncategorized", plaidName := none, expense := false }]

/-- Concrete transaction with no merchant and an empty provider category
list. -/
def c5NoCategoryTx : PlaidTransaction :=
  { accountID := "acct1", transactionID := "txn1", date := "2025-01-02",
    amountCents := 500, name := "coffee shop".data, merchantName := none,
    category := [], pending := false }

/-- Concrete transaction with a provider category unknown to the alias
map. -/
def c5AliasMissTx : PlaidTransaction :=
  { accountID := "acct1", transactionID := "txn2", date := "2025-01-03",
    amountCents := 1200, name := "mystery store".data, merchantName := none,
    category := ["SOME_NEW_PLAID_CATEGORY"], pending := false }

/-- Concrete rule mapping the substring vanguard to category 10. -/
def c6Rule1 : CategoryRule := { id := 1, matchString := "vanguard".data, categoryID := 10 }

/-- Concrete rule mapping the substring transfer to category 30. -/
def c6Rule2 : CategoryRule := { id := 2, matchString := "transfer".data, categoryID := 30 }

/-- Concrete transaction matching both rules and carrying a provider
category aliased to category 20. -/
def c6Tx : PlaidTransaction :=
  { accountID := "acct1", transactionID := "txn3", date := "2025-01-04",
    amountCents := 10000, name := "VANGUARD TRANSFER ACH".data,
    merchantName := none, category := ["TRANSFER"], pending := false }

/-- Concrete category table with a single expense category whose id, 5,
is not a valid position in the one-element list. -/
def c9Categories : List Category :=
  [{ id := 5, name := "Food", plaidName := none, expense := true }]

/-- Concrete stored transaction with a nil category reference. -/
def c9NilCatTx : Transaction :=
  { plaidAccountID := "acct1", plaidTransactionID := "t9a",
    date := "2025-01-05", amountCents := 800, name := "lunch".data,
    merchantName := none, categoryID := none, pending := false }

/-- Concrete stored transaction whose category id, 5, is a real id in
the table but out of range as a slice index. -/
def c9OutOfRangeTx : Transaction :=
  { plaidAccountID := "acct1", plaidTransactionID := "t9b",
    date := "2025-01-06", amountCents := 1500, name := "dinner".data,
    merchantName := none, categoryID := some 5, pending := false }

/-- Concrete category table whose single expense category has id 0,
coinciding with its slice position. -/
def c9IndexableCategories : List Category :=
  [{ id := 0, name := "Food", plaidName := none, expense := true }]

/-- Concrete stored transaction whose category id 0 is a valid slice
index. -/
def c9IndexableTx : Transaction :=
  { plaidAccountID := "acct1", plaidTransactionID := "t9c",
    date := "2025-01-07", amountCents := 700, name := "brunch".data,
    merchantName := none, categoryID := some 0, pending := false }

/-- Total value of the daily holding rows of one account on one date. -/
def holdingSum (rows : List DailyHolding) (accountID : String) (d : Date) : Int :=
  (rows.filter (fun h => h.accountID = accountID && h.date = d)).foldl
    (fun s h => s + h.valueCents) 0

/-- Concrete brokerage account whose balance, 10000 cents, exceeds the
5000-cent value of its single position. -/
def c7Account : SnapAccount :=
  { id := "snapacct1", balanceCents := 10000,
    positions := some [{ symbol := "VOO", quantity := 1, valueCents := 5000 }] }

/-- Concrete last day of January 2025. -/
def d20250131 : Date := { year := 2025, month := 1, day := 31 }

/-- Concrete empty snapshot store. -/
def emptySnapStore : SnapStore :=
  { dailyHoldings := [], dailySnapshots := [], monthlySnapshots := [] }

/-- Concrete second brokerage account with no positions data. -/
def c7Account2 : SnapAccount :=
  { id := "snapacct2", balanceCents := 2500, positions := none }

/-- Concrete mid-month day. -/
def d20250115 : Date := { year := 2025, month := 1, day := 15 }

/-- Concrete Plaid transactions for the two-page sync scenario. -/
def c1Tx1 : PlaidTransaction :=
  { accountID := "acct1", transactionID := "t1", date := "2025-01-02",
    amountCents := 1200, name := "coffee shop".data, merchantName := none,
    category := [], pending := false }

/-- Concrete second transaction of page one. -/
def c1Tx2 : PlaidTransaction :=
  { accountID := "acct1", transactionID := "t2", date := "2025-01-03",
    amountCents := 3400, name := "grocery store".data, merchantName := none,
    category := [], pending := false }

/-- Concrete transaction of page two. -/
def c1Tx3 : PlaidTransaction :=
  { accountID := "acct1", transactionID := "t3", date := "2025-01-04",
    amountCents := 5600, name := "gas station".data, merchantName := none,
    category := [], pending := false }

/-- Concrete first page: two added rows, has-more true, next-cursor c1. -/
def c1Page1 : SyncPage :=
  { added := [c1Tx1, c1Tx2], modified := [], removed := [],
    nextCursor := "c1", hasMore := true }

/-- Concrete second page: one added row, one removed id, has-more false,
next-cursor c2. -/
def c1Page2 : SyncPage :=
  { added := [c1Tx3], modified := [], removed := ["t1"],
    nextCursor := "c2", hasMore := false }

/-- Concrete two-page script with no injected failures. -/
def c1Script : List PageOutcome :=
  [PageOutcome.page c1Page1 false false, PageOutcome.page c1Page2 false false]

/-- Concrete never-synced pending item. -/
def c1Item : PlaidItem :=
  { itemID := "item1", accessToken := "tok", transactionsCursor := none,
    newTransactionsPending := true, status := "" }

/-- Concrete empty store for the sync scenario. -/
def c1Store : Store :=
  { transactions := [], categories := [], rules := [], itemCursor := none,
    itemPending := true, cursorPendingLog := [] }

/-- C4: each evaluated failure of the list-connections call, or of the
list-accounts call after list-connections succeeds, escalates every
connection exactly one step along OK, ACCOUNT_FETCH_ERROR,
CONNECTION_ERROR, with no escalation past CONNECTION_ERROR; when both
calls succeed every connection resets to OK regardless of prior state;
and three consecutive list-accounts failures from OK trace
ACCOUNT_FETCH_ERROR, CONNECTION_ERROR, CONNECTION_ERROR. -/
theorem snaptrade_two_strike_escalation :
    (snaptradeStatusStep "OK" SnaptradeCheckOutcome.listConnectionsFailed
        = "ACCOUNT_FETCH_ERROR"
      ∧ snaptradeStatusStep "ACCOUNT_FETCH_ERROR"
          SnaptradeCheckOutcome.listConnectionsFailed = "CONNECTION_ERROR"
      ∧ snaptradeStatusStep "CONNECTION_ERROR"
          SnaptradeCheckOutcome.listConnectionsFailed = "CONNECTION_ERROR")
    ∧ (snaptradeStatusStep "OK" SnaptradeCheckOutcome.listAccountsFailed
        = "ACCOUNT_FETCH_ERROR"
      ∧ snaptradeStatusStep "ACCOUNT_FETCH_ERROR"
          SnaptradeCheckOutcome.listAccountsFailed = "CONNECTION_ERROR"
      ∧ snaptradeStatusStep "CONNECTION_ERROR"
          SnaptradeCheckOutcome.listAccountsFailed = "CONNECTION_ERROR")
    ∧ (∀ st : String, snaptradeStatusStep st SnaptradeCheckOutcome.bothSucceeded = "OK")
    ∧ (∀ conns : List (String × String),
        runSnaptradeHealthCheck conns SnaptradeCheckOutcome.listConnectionsFailed
          = conns.map (fun kv => (kv.1, snaptradeEscalate kv.2))
        ∧ runSnaptradeHealthCheck conns SnaptradeCheckOutcome.listAccountsFailed
          = conns.map (fun kv => (kv.1, snaptradeEscalate kv.2))
        ∧ runSnaptradeHealthCheck conns SnaptradeCheckOutcome.bothSucceeded
          = conns.map (fun kv => (kv.1, "OK")))
    ∧ snaptradeStatusTrace "OK"
        [SnaptradeCheckOutcome.listAccountsFailed,
         SnaptradeCheckOutcome.listAccountsFailed,
         SnaptradeCheckOutcome.listAccountsFailed]
      = ["ACCOUNT_FETCH_ERROR", "CONNECTION_ERROR", "CONNECTION_ERROR"] := by
  refine ⟨⟨rfl, rfl, rfl⟩, ⟨rfl, rfl, rfl⟩, fun st => rfl, fun conns => ⟨rfl, rfl, rfl⟩, rfl⟩

/-- C2 counterexample: a failed Plaid call whose error code is
unrecognized (in neither the auth list nor any transient list) leaves
the stored item status unchanged instead of transitioning it to
ITEM_LOGIN_REQUIRED — the monitor does not fail closed on unknown
codes. -/
theorem plaid_unknown_code_stays_counterexample :
    isPlaidAuthError "SOME_UNRECOGNIZED_CODE" = false
    ∧ plaidItemStatusAfterFailure "HEALTHY"
        (mkPlaidConnectionError "SOME_UNRECOGNIZED_CODE") = "HEALTHY"
    ∧ "HEALTHY" ≠ "ITEM_LOGIN_REQUIRED" := by
  refine ⟨rfl, rfl, by decide⟩

/-- C2 amended: on a failed Plaid call the item status transitions to
ITEM_LOGIN_REQUIRED exactly when the error code belongs to the fixed
four-code auth list; every other code — known-transient or
unrecognized — leaves the status unchanged (the monitor fails open, not
closed, on unknown codes). -/
theorem plaid_health_fails_open (current code : String) :
    (isPlaidAuthError code = true ↔ code ∈ authErrorCodes)
    ∧ (isPlaidAuthError code = true →
        plaidItemStatusAfterFailure current (mkPlaidConnectionError code)
          = "ITEM_LOGIN_REQUIRED")
    ∧ (isPlaidAuthError code = false →
        plaidItemStatusAfterFailure current (mkPlaidConnectionError code)
          = current) := by
  refine ⟨?_, ?_, ?_⟩
  · simp [isPlaidAuthError]
  · intro h
    simp [plaidItemStatusAfterFailure, mkPlaidConnectionError, h]
  · intro h
    simp [plaidItemStatusAfterFailure, mkPlaidConnectionError, h]

/-- C2 witness: the theorem applied at a recognized auth code and read
off at a concrete state. -/
theorem plaid_health_fails_open_witness :
    plaidItemStatusAfterFailure "HEALTHY"
        (mkPlaidConnectionError "ITEM_LOGIN_REQUIRED") = "ITEM_LOGIN_REQUIRED" :=
  (plaid_health_fails_open "HEALTHY" "ITEM_LOGIN_REQUIRED").2.1 rfl

/-- C3 counterexample: an authorized daily-sync run on which both the
Plaid sync step and the snapshot step succeed still invokes both
connection health monitors — they are not restricted to the error
path. -/
theorem health_checks_on_success_counterexample :
    (handleDailySync allOkEnv).status = 200
    ∧ SyncEvent.plaidHealthCheck ∈ (handleDailySync allOkEnv).trace
    ∧ SyncEvent.snaptradeHealthCheck ∈ (handleDailySync allOkEnv).trace := by
  refine ⟨rfl, by decide, by decide⟩

/-- C3 amended: on every authorized daily-sync run, whatever the
outcomes of the sync and snapshot steps, both connection health
monitors are invoked exactly once each, unconditionally and before the
sync and snapshot steps. -/
theorem health_checks_unconditional (env : DailySyncEnv)
    (hauth : env.headerSecret = env.cronSecret) :
    (handleDailySync env).trace.take 2
      = [SyncEvent.plaidHealthCheck, SyncEvent.snaptradeHealthCheck]
    ∧ (handleDailySync env).trace.count SyncEvent.plaidHealthCheck = 1
    ∧ (handleDailySync env).trace.count SyncEvent.snaptradeHealthCheck = 1 := by
  simp only [handleDailySync, hauth, ne_eq, not_true_eq_false, if_false]
  by_cases h1 : env.plaidSyncFails <;> by_cases h2 : env.snapshotFails <;>
    simp [h1, h2, List.count_cons]

/-- C3 witness: the amended theorem applied to a run whose steps both
fail at the sync stage. -/
theorem health_checks_unconditional_witness :
    (handleDailySync plaidFailEnv).trace.take 2
      = [SyncEvent.plaidHealthCheck, SyncEvent.snaptradeHealthCheck] :=
  (health_checks_unconditional plaidFailEnv rfl).1

/-- C10: a daily-sync request is authorized exactly when the
X-Cron-Secret header equals the CRON_SECRET environment value, the
query-string credential is never consulted, and when CRON_SECRET is
empty a request whose header is absent (reads as the empty string) is
authorized and reaches the batch steps. -/
theorem cron_secret_header_only (env : DailySyncEnv) :
    ((handleDailySync env).status ≠ 401 ↔ env.headerSecret = env.cronSecret)
    ∧ (∀ q, handleDailySync { env with querySecret := q } = handleDailySync env)
    ∧ (env.cronSecret = "" → env.headerSecret = "" →
        (handleDailySync env).status ≠ 401
        ∧ SyncEvent.plaidSync ∈ (handleDailySync env).trace) := by
  refine ⟨?_, ?_, ?_⟩
  · by_cases h : env.headerSecret = env.cronSecret
    · simp only [handleDailySync, h, ne_eq, not_true_eq_false, if_false]
      by_cases h1 : env.plaidSyncFails <;> by_cases h2 : env.snapshotFails <;>
        simp [h, h1, h2]
    · simp [handleDailySync, h]
  · intro q
    simp [handleDailySync]
  · intro hc hh
    have h : env.headerSecret = env.cronSecret := by rw [hc, hh]
    constructor
    · simp only [handleDailySync, h, ne_eq, not_true_eq_false, if_false]
      by_cases h1 : env.plaidSyncFails <;> by_cases h2 : env.snapshotFails <;>
        simp [h1, h2]
    · simp only [handleDailySync, h, ne_eq, not_true_eq_false, if_false]
      by_cases h1 : env.plaidSyncFails <;> by_cases h2 : env.snapshotFails <;>
        simp [h1, h2]

/-- C10 witness: with an empty CRON_SECRET and an omitted header the run
is authorized and executes the Plaid sync step. -/
theorem cron_secret_header_only_witness :
    (handleDailySync openCronEnv).status ≠ 401
    ∧ SyncEvent.plaidSync ∈ (handleDailySync openCronEnv).trace :=
  (cron_secret_header_only openCronEnv).2.2 rfl rfl

/-- C8: for POST requests against a configured database, a payload whose
webhook code is not SYNC_UPDATES_AVAILABLE gets 200 with no state
change; the pending flag is set only for the SYNC_UPDATES_AVAILABLE
code; a malformed body gets 400; 500 occurs only when the pending-flag
write fails; and a valid new-data payload with a working store sets the
flag for that item and returns 200. -/
theorem webhook_endpoint_behavior (body : WebhookBody) (deps : WebhookDeps)
    (hdb : deps.dbConfigured = true) :
    (∀ wt code item, body = WebhookBody.payload wt code item →
        code ≠ "SYNC_UPDATES_AVAILABLE" →
        HandlePlaidWebhook "POST" body deps
          = { status := 200, pendingSetFor := none })
    ∧ (∀ item, (HandlePlaidWebhook "POST" body deps).pendingSetFor = some item →
        ∃ wt, body = WebhookBody.payload wt "SYNC_UPDATES_AVAILABLE" item)
    ∧ (body = WebhookBody.malformed →
        HandlePlaidWebhook "POST" body deps
          = { status := 400, pendingSetFor := none })
    ∧ ((HandlePlaidWebhook "POST" body deps).status = 500 →
        deps.writeFails = true)
    ∧ (∀ wt item, item ≠ "" → deps.writeFails = false →
        body = WebhookBody.payload wt "SYNC_UPDATES_AVAILABLE" item →
        HandlePlaidWebhook "POST" body deps
          = { status := 200, pendingSetFor := some item }) := by
  refine ⟨?_, ?_, ?_, ?_, ?_⟩
  · intro wt code item hbody hcode
    simp [HandlePlaidWebhook, hbody, hcode]
  · intro item hset
    cases body with
    | malformed => simp [HandlePlaidWebhook] at hset
    | payload wt code itemID =>
      by_cases hcode : code = "SYNC_UPDATES_AVAILABLE"
      · subst hcode
        by_cases hid : itemID = ""
        · simp [HandlePlaidWebhook, hid] at hset
        · by_cases hw : deps.writeFails
          · simp [HandlePlaidWebhook, hid, hdb, hw] at hset
          · simp only [HandlePlaidWebhook] at hset
            simp [hid, hdb, hw] at hset
            exact ⟨wt, by rw [hset]⟩
      · simp [HandlePlaidWebhook, hcode] at hset
  · intro hbody
    simp [HandlePlaidWebhook, hbody]
  · intro h500
    cases body with
    | malformed => simp [HandlePlaidWebhook] at h500
    | payload wt code itemID =>
      by_cases hcode : code = "SYNC_UPDATES_AVAILABLE"
      · by_cases hid : itemID = ""
        · simp [HandlePlaidWebhook, hcode, hid] at h500
        · by_cases hw : deps.writeFails
          · exact hw
          · simp [HandlePlaidWebhook, hcode, hid, hdb, hw] at h500
      · simp [HandlePlaidWebhook, hcode] at h500
  · intro wt item hid hw hbody
    simp [HandlePlaidWebhook, hbody, hid, hdb, hw]

/-- C8 witness: a POST with the new-data code for item itemA sets the
flag for itemA and returns 200. -/
theorem webhook_endpoint_behavior_witness :
    HandlePlaidWebhook "POST"
        (WebhookBody.payload "TRANSACTIONS" "SYNC_UPDATES_AVAILABLE" "itemA")
        okWebhookDeps
      = { status := 200, pendingSetFor := some "itemA" } :=
  (webhook_endpoint_behavior
      (WebhookBody.payload "TRANSACTIONS" "SYNC_UPDATES_AVAILABLE" "itemA")
      okWebhookDeps rfl).2.2.2.2 "TRANSACTIONS" "itemA" (by decide) rfl rfl

/-- C5 counterexample: with no matching rule and an empty
provider-category list, the converted row keeps a nil category
reference rather than being assigned the Uncategorized category id. -/
theorem uncategorized_fallback_counterexample :
    buildPlaidNameMap c5Categories = ([], 7)
    ∧ resolveByRules [] (lower c5NoCategoryTx.name)
        (merchantText c5NoCategoryTx) = none
    ∧ (plaidTransactionToDB c5NoCategoryTx [] 7 []).categoryID = none
    ∧ (none : Option Int) ≠ some 7 := by
  refine ⟨rfl, rfl, rfl, by decide⟩

/-- C5 amended: when no rule matches, a transaction carrying a nonempty
provider category list resolves through the alias map with fallback to
the Uncategorized id and is never left unassigned; a transaction whose
provider category list is empty is left with a nil category
reference. -/
theorem uncategorized_fallback (p : PlaidTransaction)
    (m : List (String × Int)) (u : Int) (rules : List CategoryRule)
    (hnorule : resolveByRules rules (lower p.name) (merchantText p) = none) :
    (p.category = [] → (plaidTransactionToDB p m u rules).categoryID = none)
    ∧ (∀ primary rest, p.category = primary :: rest →
        mapLookup m primary = none →
        (plaidTransactionToDB p m u rules).categoryID = some u)
    ∧ (∀ primary rest cid, p.category = primary :: rest →
        mapLookup m primary = some cid →
        (plaidTransactionToDB p m u rules).categoryID = some cid) := by
  refine ⟨?_, ?_, ?_⟩
  · intro h
    simp [plaidTransactionToDB, hnorule, h]
  · intro primary rest h hlook
    simp [plaidTransactionToDB, hnorule, h, hlook]
  · intro primary rest cid h hlook
    simp [plaidTransactionToDB, hnorule, h, hlook]

/-- C5 witness: the amended theorem at a transaction whose provider
category misses the alias map, landing on the Uncategorized id. -/
theorem uncategorized_fallback_witness :
    (plaidTransactionToDB c5AliasMissTx [] 7 []).categoryID = some 7 :=
  (uncategorized_fallback c5AliasMissTx [] 7 [] rfl).2.1
    "SOME_NEW_PLAID_CATEGORY" [] rfl rfl

/-- Resolving by rules returns the category of the given rule when the
rule list is strictly ascending in id, the rule is in the list and
matches, and no rule with a smaller id matches. -/
theorem resolveByRules_first (rules : List CategoryRule)
    (name merchant : List Char) (r : CategoryRule)
    (hsorted : List.Pairwise (fun a b => a.id < b.id) rules)
    (hmem : r ∈ rules) (hmatch : ruleMatches r name merchant = true)
    (hfirst : ∀ r2 ∈ rules, r2.id < r.id →
      ruleMatches r2 name merchant = false) :
    resolveByRules rules name merchant = some r.categoryID := by
  induction rules with
  | nil => cases hmem
  | cons h t ih =>
    rcases List.mem_cons.mp hmem with hr | hr
    · subst hr
      simp [resolveByRules, hmatch]
    · have hid : h.id < r.id := ((List.pairwise_cons.mp hsorted).1 r hr)
      have hhf : ruleMatches h name merchant = false :=
        hfirst h (List.mem_cons_self h t) hid
      simp only [resolveByRules, hhf, Bool.false_eq_true, if_false]
      exact ih (List.pairwise_cons.mp hsorted).2 hr
        (fun r2 h2 => hfirst r2 (List.mem_cons_of_mem h h2))

/-- C6: when some rule matches the lowercased transaction text, the
resolved category is that of the first matching rule in ascending
rule-id order, and the alias map and uncategorized fallback are never
consulted — the result is the same for every alias map and fallback
id. -/
theorem rule_precedence (p : PlaidTransaction) (m : List (String × Int))
    (u : Int) (rules : List CategoryRule) (r : CategoryRule)
    (hsorted : List.Pairwise (fun a b => a.id < b.id) rules)
    (hmem : r ∈ rules)
    (hmatch : ruleMatches r (lower p.name) (merchantText p) = true)
    (hfirst : ∀ r2 ∈ rules, r2.id < r.id →
      ruleMatches r2 (lower p.name) (merchantText p) = false) :
    (plaidTransactionToDB p m u rules).categoryID = some r.categoryID
    ∧ ∀ m2 u2, (plaidTransactionToDB p m2 u2 rules).categoryID
        = some r.categoryID := by
  have hres := resolveByRules_first rules (lower p.name) (merchantText p) r
    hsorted hmem hmatch hfirst
  exact ⟨by simp [plaidTransactionToDB, hres],
    fun m2 u2 => by simp [plaidTransactionToDB, hres]⟩

/-- C6 witness: with the alias map sending TRANSFER to 20, the custom
rule with the least id wins and resolves to 10. -/
theorem rule_precedence_witness :
    (plaidTransactionToDB c6Tx [("TRANSFER", 20)] 7 [c6Rule1, c6Rule2]).categoryID
      = some 10 :=
  (rule_precedence c6Tx [("TRANSFER", 20)] 7 [c6Rule1, c6Rule2] c6Rule1
    (by decide) (by decide) (by decide) (by decide)).1

/-- The spending loop succeeds on every accumulator when each
transaction carries a category id that is a valid index into the
category list. -/
theorem spentLoop_total (isExpense : Int → Bool) (cats : List Category)
    (txs : List Transaction)
    (h : ∀ t ∈ txs, ∃ cid, t.categoryID = some cid ∧ 0 ≤ cid
      ∧ cid.toNat < cats.length) :
    ∀ acc, (spentLoop isExpense cats txs acc).isSome = true := by
  induction txs with
  | nil => intro acc; simp [spentLoop]
  | cons t rest ih =>
    intro acc
    obtain ⟨cid, hcid, hnn, hlt⟩ := h t (List.mem_cons_self t rest)
    have hrest := fun t2 ht2 => h t2 (List.mem_cons_of_mem t ht2)
    simp only [spentLoop, hcid]
    by_cases he : isExpense cid
    · rw [if_pos he, dif_pos ⟨hnn, hlt⟩]
      exact ih hrest _
    · rw [if_neg he]
      exact ih hrest _

/-- C9: the monthly spent-by-category computation is partial: it panics
(models to none) on a transaction with a nil category reference, and on
a category id used as a slice index that is out of range; and it is
total whenever every transaction carries a category id that is a valid
index into the category list. -/
theorem calculateMonthlySpentByCategory_partial :
    calculateMonthlySpentByCategory "2025-01" [c9NilCatTx] c9Categories = none
    ∧ calculateMonthlySpentByCategory "2025-01" [c9OutOfRangeTx] c9Categories
        = none
    ∧ (∀ (month : String) (txs : List Transaction) (cats : List Category),
        (∀ t ∈ txs, ∃ cid, t.categoryID = some cid ∧ 0 ≤ cid
          ∧ cid.toNat < cats.length) →
        (calculateMonthlySpentByCategory month txs cats).isSome = true) := by
  refine ⟨rfl, by decide, ?_⟩
  intro month txs cats h
  by_cases hm : month = ""
  · simp [calculateMonthlySpentByCategory, hm]
  · simp only [calculateMonthlySpentByCategory, hm, if_false]
    exact spentLoop_total _ cats txs h []

/-- C9 witness: the totality part applied to a transaction whose
category id is a valid index. -/
theorem calculateMonthlySpentByCategory_partial_witness :
    (calculateMonthlySpentByCategory "2025-01" [c9IndexableTx]
        c9IndexableCategories).isSome = true :=
  calculateMonthlySpentByCategory_partial.2.2 "2025-01" [c9IndexableTx]
    c9IndexableCategories
    (by
      intro t ht
      simp only [List.mem_singleton] at ht
      subst ht
      exact ⟨0, rfl, le_refl 0, by decide⟩)

/-- C7 counterexample: on a month-end run the monthly snapshot row is
valued at the account balance total, 10000 cents, while the per-account
DailyHolding sum written the same day is 5000 cents — the monthly value
does not equal the holding sum. -/
theorem monthly_value_counterexample :
    (writeSnaptradeSnapshotsForToday [c7Account] d20250131 emptySnapStore).2.2 = 1
    ∧ (writeSnaptradeSnapshotsForToday [c7Account] d20250131
          emptySnapStore).1.monthlySnapshots
        = [{ month := { year := 2025, month := 1, day := 1 },
             accountID := "snapacct1", portfolioValueCents := 10000 }]
    ∧ holdingSum (writeSnaptradeSnapshotsForToday [c7Account] d20250131
          emptySnapStore).1.dailyHoldings "snapacct1" d20250131 = 5000
    ∧ (10000 : Int) ≠ 5000 := by
  refine ⟨rfl, rfl, rfl, by decide⟩

/-- Upserting a monthly snapshot whose key is absent appends it. -/
theorem upsertMonthlySnapshot_fresh (rows : List MonthlySnapshot)
    (m : MonthlySnapshot)
    (h : ∀ r ∈ rows, ¬(r.month = m.month ∧ r.accountID = m.accountID)) :
    upsertMonthlySnapshot rows m = rows ++ [m] := by
  induction rows with
  | nil => rfl
  | cons r rest ih =>
    have hb : ¬((r.month = m.month && r.accountID = m.accountID) = true) := by
      simp only [Bool.and_eq_true, decide_eq_true_eq]
      exact h r (List.mem_cons_self r rest)
    simp only [upsertMonthlySnapshot, if_neg hb]
    rw [ih (fun r2 h2 => h r2 (List.mem_cons_of_mem r h2))]
    rfl

/-- Folding fresh-keyed monthly upserts over a key-distinct totals list
appends one row per entry. -/
theorem foldl_upsertMonthly_fresh (monthStart : Date)
    (totals : List (String × Int)) :
    ∀ rows : List MonthlySnapshot,
    (totals.map Prod.fst).Nodup →
    (∀ r ∈ rows, ∀ kv ∈ totals, ¬(r.month = monthStart ∧ r.accountID = kv.1)) →
    totals.foldl (fun rs kv => upsertMonthlySnapshot rs (monthlyRowOf monthStart kv))
        rows
      = rows ++ totals.map (monthlyRowOf monthStart) := by
  induction totals with
  | nil => intro rows _ _; simp
  | cons kv0 rest ih =>
    intro rows hnodup hfresh
    have hnodup2 : (kv0.1 :: rest.map Prod.fst).Nodup := by simpa using hnodup
    have hnd := List.nodup_cons.mp hnodup2
    simp only [List.foldl_cons]
    have h1 : upsertMonthlySnapshot rows (monthlyRowOf monthStart kv0)
        = rows ++ [monthlyRowOf monthStart kv0] :=
      upsertMonthlySnapshot_fresh rows _ (fun r hr => by
        simpa [monthlyRowOf] using
          hfresh r hr kv0 (List.mem_cons_self kv0 rest))
    rw [h1]
    have hfresh2 : ∀ r ∈ rows ++ [monthlyRowOf monthStart kv0], ∀ kv ∈ rest,
        ¬(r.month = monthStart ∧ r.accountID = kv.1) := by
      intro r hr kv hkv
      rcases List.mem_append.mp hr with hmem | hmem
      · exact hfresh r hmem kv (List.mem_cons_of_mem kv0 hkv)
      · have hreq : r = monthlyRowOf monthStart kv0 := by simpa using hmem
        subst hreq
        rintro ⟨-, hacc⟩
        exact hnd.1 (by
          rw [show kv0.1 = kv.1 from hacc]
          exact List.mem_map_of_mem Prod.fst hkv)
    rw [ih (rows ++ [monthlyRowOf monthStart kv0]) hnd.2 hfresh2]
    simp

/-- The account loop returns the accountTotals accumulator as the fold
of the per-account inserts, whatever the running total and holding
accumulators. -/
theorem snapshotAccountLoop_totals (today : Date)
    (accounts : List SnapAccount) :
    ∀ (tot : Int) (m : List (String × Int)) (hs : List DailyHolding),
    (snapshotAccountLoop today accounts tot m hs).2.1
      = accounts.foldl (fun acc a => insertTotal acc a.id a.balanceCents) m := by
  induction accounts with
  | nil => intro tot m hs; rfl
  | cons a rest ih =>
    intro tot m hs
    simp only [snapshotAccountLoop, List.foldl_cons]
    apply ih

/-- Inserting a fresh key into the totals map appends the binding. -/
theorem insertTotal_fresh (m : List (String × Int)) (k : String) (v : Int)
    (h : ∀ kv ∈ m, kv.1 ≠ k) :
    insertTotal m k v = m ++ [(k, v)] := by
  induction m with
  | nil => rfl
  | cons kv rest ih =>
    have hk : ¬(kv.1 = k) := h kv (List.mem_cons_self kv rest)
    simp only [insertTotal, if_neg hk]
    rw [ih (fun kv2 h2 => h kv2 (List.mem_cons_of_mem kv h2))]
    rfl

/-- Folding the per-account total inserts over accounts with distinct
ids appends one binding per account. -/
theorem foldl_insertTotal_fresh (accounts : List SnapAccount) :
    ∀ m : List (String × Int),
    (accounts.map SnapAccount.id).Nodup →
    (∀ kv ∈ m, kv.1 ∉ accounts.map SnapAccount.id) →
    accounts.foldl (fun acc a => insertTotal acc a.id a.balanceCents) m
      = m ++ accounts.map (fun a => (a.id, a.balanceCents)) := by
  induction accounts with
  | nil => intro m _ _; simp
  | cons a rest ih =>
    intro m hnodup hfresh
    have hnodup2 : (a.id :: rest.map SnapAccount.id).Nodup := by simpa using hnodup
    have hnd := List.nodup_cons.mp hnodup2
    simp only [List.foldl_cons]
    have h1 : insertTotal m a.id a.balanceCents = m ++ [(a.id, a.balanceCents)] :=
      insertTotal_fresh m a.id a.balanceCents (fun kv hkv => by
        have := hfresh kv hkv
        simp only [List.map_cons, List.mem_cons] at this
        exact fun hc => this (Or.inl hc))
    rw [h1]
    have hfresh2 : ∀ kv ∈ m ++ [(a.id, a.balanceCents)],
        kv.1 ∉ rest.map SnapAccount.id := by
      intro kv hkv
      rcases List.mem_append.mp hkv with hmem | hmem
      · have := hfresh kv hmem
        simp only [List.map_cons, List.mem_cons] at this
        exact fun hc => this (Or.inr hc)
      · have hkveq : kv = (a.id, a.balanceCents) := by simpa using hmem
        subst hkveq
        exact hnd.1
    rw [ih (m ++ [(a.id, a.balanceCents)]) hnd.2 hfresh2]
    simp

/-- C7 amended: a snapshot-engine run over a nonempty account list with
distinct ids writes monthly rows exactly when tomorrow falls in a
different calendar month: on a non-last day the monthly table is
untouched and the count is zero, and on a last day (starting from an
empty monthly table, the at-most-once normal case) it writes exactly
one row per fetched account, dated the first of the closing month and
valued at that account's balance-derived total — the same per-account
total used for the daily snapshot, not the DailyHolding sum. -/
theorem month_end_rollup (accounts : List SnapAccount) (today : Date)
    (store : SnapStore) (hne : accounts ≠ [])
    (hnodup : (accounts.map SnapAccount.id).Nodup) :
    ((nextDay today).month = today.month →
        (writeSnaptradeSnapshotsForToday accounts today store).1.monthlySnapshots
          = store.monthlySnapshots
        ∧ (writeSnaptradeSnapshotsForToday accounts today store).2.2 = 0)
    ∧ ((nextDay today).month ≠ today.month → store.monthlySnapshots = [] →
        (writeSnaptradeSnapshotsForToday accounts today store).2.2
          = accounts.length
        ∧ (writeSnaptradeSnapshotsForToday accounts today store).1.monthlySnapshots
          = accounts.map (fun a =>
              monthlyRowOf { year := today.year, month := today.month, day := 1 }
                (a.id, a.balanceCents))) := by
  have hie : accounts.isEmpty = false := by
    cases accounts with
    | nil => exact absurd rfl hne
    | cons a t => rfl
  have htotals :
      (snapshotAccountLoop today accounts 0 [] store.dailyHoldings).2.1
        = accounts.map (fun a => (a.id, a.balanceCents)) := by
    rw [snapshotAccountLoop_totals]
    simpa using foldl_insertTotal_fresh accounts [] hnodup (by simp)
  constructor
  · intro hsame
    simp [writeSnaptradeSnapshotsForToday, hie, maybeWriteMonthlySnapshots, hsame]
  · intro hdiff hempty
    have hkeys : ((accounts.map (fun a => (a.id, a.balanceCents))).map Prod.fst).Nodup := by
      simpa [List.map_map, Function.comp] using hnodup
    have hfold := foldl_upsertMonthly_fresh
      { year := today.year, month := today.month, day := 1 }
      (accounts.map (fun a => (a.id, a.balanceCents))) [] hkeys (by simp)
    simp only [writeSnaptradeSnapshotsForToday, hie, Bool.false_eq_true, if_false,
      maybeWriteMonthlySnapshots, hdiff, if_neg hdiff, htotals, hempty]
    constructor
    · simp
    · rw [hfold]
      simp [List.map_map, Function.comp]

/-- C7 witness: the amended theorem read off at a two-account run, on a
mid-month day (no monthly rows) and on the month-end day (one
balance-valued row per account). -/
theorem month_end_rollup_witness :
    ((writeSnaptradeSnapshotsForToday [c7Account, c7Account2] d20250115
        emptySnapStore).2.2 = 0)
    ∧ ((writeSnaptradeSnapshotsForToday [c7Account, c7Account2] d20250131
        emptySnapStore).2.2 = 2) :=
  ⟨((month_end_rollup [c7Account, c7Account2] d20250115 emptySnapStore
      (by decide) (by decide)).1 (by decide)).2,
   ((month_end_rollup [c7Account, c7Account2] d20250131 emptySnapStore
      (by decide) (by decide)).2 (by decide) rfl).1⟩

/-- The page loop never touches the item cursor, the pending flag or the
cursor-and-pending update log: only the transaction table changes. -/
theorem runSyncPages_preserves (m : List (String × Int)) (u : Int)
    (rules : List CategoryRule) (script : List PageOutcome) :
    ∀ (cursor : String) (s : Store),
    (runSyncPages m u rules script cursor s).1.itemCursor = s.itemCursor
    ∧ (runSyncPages m u rules script cursor s).1.itemPending = s.itemPending
    ∧ (runSyncPages m u rules script cursor s).1.cursorPendingLog
        = s.cursorPendingLog := by
  induction script with
  | nil => intro cursor s; exact ⟨rfl, rfl, rfl⟩
  | cons o rest ih =>
    intro cursor s
    cases o with
    | fetchErr => exact ⟨rfl, rfl, rfl⟩
    | page p uf df =>
      simp only [runSyncPages]
      split
      · exact ⟨rfl, rfl, rfl⟩
      · split
        · exact ⟨rfl, rfl, rfl⟩
        · split
          · exact ih p.nextCursor _
          · exact ⟨rfl, rfl, rfl⟩

/-- When the page loop succeeds, the cursor it returns is the
next-cursor of a consumed page whose has-more flag is false — never an
intermediate page cursor. -/
theorem runSyncPages_success_cursor (m : List (String × Int)) (u : Int)
    (rules : List CategoryRule) (script : List PageOutcome) :
    ∀ (cursor : String) (s : Store) (fc : String),
    (runSyncPages m u rules script cursor s).2 = some fc →
    ∃ p uf df, PageOutcome.page p uf df ∈ script ∧ p.hasMore = false
      ∧ p.nextCursor = fc := by
  induction script with
  | nil =>
    intro cursor s fc h
    simp [runSyncPages] at h
  | cons o rest ih =>
    intro cursor s fc h
    cases o with
    | fetchErr => simp [runSyncPages] at h
    | page p uf df =>
      simp only [runSyncPages] at h
      split at h
      · simp at h
      · split at h
        · simp at h
        · split at h
          · obtain ⟨p2, uf2, df2, hmem, hhm, hnc⟩ := ih p.nextCursor _ fc h
            exact ⟨p2, uf2, df2, List.mem_cons_of_mem _ hmem, hhm, hnc⟩
          · rename_i hnotmore
            refine ⟨p, uf, df, List.mem_cons_self _ _, ?_, ?_⟩
            · simpa using hnotmore
            · exact Option.some.inj h

/-- C1: an item sync that errors anywhere — a categories or rules read,
a page fetch, an upsert or a delete inside the loop, or the final
PATCH — leaves the stored cursor, the pending flag and the
cursor-and-pending update log exactly as before the run; a successful
run appends exactly one atomic cursor-and-pending update, storing the
next-cursor of a consumed page with has-more false together with
pending cleared — never an intermediate page cursor. -/
theorem sync_cursor_atomicity (script : List PageOutcome) (item : PlaidItem)
    (lcf lrf fuf : Bool) (s : Store) :
    ((SyncTransactionsForItem script item lcf lrf fuf s).2 = true →
        (SyncTransactionsForItem script item lcf lrf fuf s).1.itemCursor
          = s.itemCursor
        ∧ (SyncTransactionsForItem script item lcf lrf fuf s).1.itemPending
          = s.itemPending
        ∧ (SyncTransactionsForItem script item lcf lrf fuf s).1.cursorPendingLog
          = s.cursorPendingLog)
    ∧ ((SyncTransactionsForItem script item lcf lrf fuf s).2 = false →
        ∃ p uf df, PageOutcome.page p uf df ∈ script ∧ p.hasMore = false
          ∧ (SyncTransactionsForItem script item lcf lrf fuf s).1.itemCursor
            = some p.nextCursor
          ∧ (SyncTransactionsForItem script item lcf lrf fuf s).1.itemPending
            = false
          ∧ (SyncTransactionsForItem script item lcf lrf fuf s).1.cursorPendingLog
            = s.cursorPendingLog ++ [(p.nextCursor, false)]) := by
  cases lcf with
  | true =>
    refine ⟨fun _ => ⟨rfl, rfl, rfl⟩, fun h => absurd h ?_⟩
    simp [SyncTransactionsForItem]
  | false =>
  cases lrf with
  | true =>
    refine ⟨fun _ => ⟨rfl, rfl, rfl⟩, fun h => absurd h ?_⟩
    simp [SyncTransactionsForItem]
  | false =>
  have hpres : (syncRun script item s).1.itemCursor = s.itemCursor
      ∧ (syncRun script item s).1.itemPending = s.itemPending
      ∧ (syncRun script item s).1.cursorPendingLog = s.cursorPendingLog :=
    runSyncPages_preserves (buildPlaidNameMap s.categories).1
      (buildPlaidNameMap s.categories).2 s.rules script
      (cursorOrEmpty item.transactionsCursor) s
  cases hoc : (syncRun script item s).2 with
  | none =>
    have heq : SyncTransactionsForItem script item false false fuf s
        = ((syncRun script item s).1, true) := by
      simp only [SyncTransactionsForItem, Bool.false_eq_true, if_false]
      rw [hoc]
    rw [heq]
    exact ⟨fun _ => hpres, fun h => by cases h⟩
  | some fc =>
    cases fuf with
    | true =>
      have heq : SyncTransactionsForItem script item false false true s
          = ((syncRun script item s).1, true) := by
        simp only [SyncTransactionsForItem, Bool.false_eq_true, if_false]
        rw [hoc]
        simp
      rw [heq]
      exact ⟨fun _ => hpres, fun h => by cases h⟩
    | false =>
      have heq : SyncTransactionsForItem script item false false false s
          = (updatePlaidItemCursorAndPending (syncRun script item s).1 fc false,
             false) := by
        simp only [SyncTransactionsForItem, Bool.false_eq_true, if_false]
        rw [hoc]
      rw [heq]
      refine ⟨fun h => absurd h (by simp), fun _ => ?_⟩
      obtain ⟨p, uf, df, hmem, hhm, hnc⟩ :=
        runSyncPages_success_cursor (buildPlaidNameMap s.categories).1
          (buildPlaidNameMap s.categories).2 s.rules script
          (cursorOrEmpty item.transactionsCursor) s fc hoc
      refine ⟨p, uf, df, hmem, hhm, ?_, rfl, ?_⟩
      · show some fc = some p.nextCursor
        rw [hnc]
      · show (syncRun script item s).1.cursorPendingLog ++ [(fc, false)]
          = s.cursorPendingLog ++ [(p.nextCursor, false)]
        rw [hpres.2.2, hnc]

/-- C1 witness: the theorem applied to the concrete two-page run, whose
error flag evaluates to false, yielding the stored final cursor and the
single appended atomic update. -/
theorem sync_cursor_atomicity_witness :
    ∃ p uf df, PageOutcome.page p uf df ∈ c1Script ∧ p.hasMore = false
      ∧ (SyncTransactionsForItem c1Script c1Item false false false
          c1Store).1.itemCursor = some p.nextCursor
      ∧ (SyncTransactionsForItem c1Script c1Item false false false
          c1Store).1.itemPending = false
      ∧ (SyncTransactionsForItem c1Script c1Item false false false
          c1Store).1.cursorPendingLog
        = c1Store.cursorPendingLog ++ [(p.nextCursor, false)] :=
  (sync_cursor_atomicity c1Script c1Item false false false c1Store).2 rfl

end PortfolioTracker


